import Mathlib

/-!
Verification development for the social-media / mental-health pipeline.

This file gives a shallow embedding of the data-processing core of the
repository — `sentiment_analyzer.py` (text cleaning, dual sentiment
categorisation, mental-health term tagging, per-file processing) and
`database_setup.py` (`import_processed_data`: schema reconciliation,
term-occurrence upserts, per-user aggregation, append-only persistence) —
and proves or refutes the specification claims about it.

Modelling conventions:
* Python strings are `List Char` where character-level work happens
  (regexes, substring tests) and `String` where strings are only compared
  or stored.  Character classes (`\w`, `\s`, `str.lower`) are modelled on
  the ASCII fragment, which covers every input in this development.
* Python floats are `ℚ`.  Because `Rat.add`/`Rat.div` are `@[irreducible]`
  in this toolchain, the model computes with `mkRat`-based operations
  (`qadd`, `qdivNat`, `qsum`); bridge lemmas prove they agree with the
  ordinary `ℚ` operations, so definitions remain faithful to the source's
  arithmetic while staying kernel-reducible.
* Fallible Python code (`try`/`except`, raising library calls) is modelled
  with `Except Unit` / `Option`.
* `pandas.read_csv` is the input boundary: a parsed CSV is a `DataFrame`
  whose cells are strings, numbers or NaN.  `datetime.now()` is passed in
  as an explicit `now` argument.
* `json.dumps` of a list of strings is represented by the constructor
  `Value.jsonList`: it stands for the encoded string, exploiting that
  `dumps` is injective and `json.loads (json.dumps l) = l`.
* `eval` / `json.loads` on encoded lists and objects are modelled on the
  fragment the pipeline actually produces and consumes: list literals of
  quoted strings and flat string-to-string objects.  Any other Python
  expression is modelled as a parse failure (a raise).
-/

/-! ## Generic helpers -/

/-- Map a fallible function over a list; any failure fails the whole
traversal (the behaviour of `pandas.Series.apply` when the function
raises). -/
def mapE {α β : Type} (f : α → Except Unit β) : List α → Except Unit (List β)
  | [] => .ok []
  | a :: as =>
    match f a, mapE f as with
    | .error e, _ => .error e
    | .ok _, .error e => .error e
    | .ok b, .ok bs => .ok (b :: bs)

/-- Fold a fallible step over a list, stopping at the first failure. -/
def foldE {σ α : Type} (f : σ → α → Except Unit σ) : σ → List α → Except Unit σ
  | s, [] => .ok s
  | s, a :: as =>
    match f s a with
    | .error e => .error e
    | .ok s2 => foldE f s2 as

/-- Boolean success test for `Except Unit`. -/
def isOkE {α : Type} : Except Unit α → Bool
  | .ok _ => true
  | .error _ => false

/-! ## Kernel-reducible rational arithmetic

`Rat.add` and friends are `@[irreducible]`; these equivalents reduce in the
kernel.  The bridge lemmas below (in the theorem section) show they are the
ordinary operations. -/

/-- Addition on `ℚ` via `mkRat` (agrees with `+`, see `qadd_eq_add`). -/
def qadd (a b : ℚ) : ℚ := mkRat (a.num * b.den + b.num * a.den) (a.den * b.den)

/-- Division of a `ℚ` by a natural number via `mkRat` (agrees with `/`,
see `qdivNat_eq_div`). -/
def qdivNat (a : ℚ) (n : Nat) : ℚ := mkRat a.num (a.den * n)

/-- Sum of a list of rationals using `qadd`. -/
def qsum (l : List ℚ) : ℚ := l.foldr qadd 0

/-! ## `sentiment_analyzer.py`: text cleaning -/

/-- Python regex `\s` on the ASCII fragment: space, tab, newline, carriage
return, vertical tab, form feed. -/
def isPySpace (c : Char) : Bool :=
  c = ' ' || c.val = 9 || c.val = 10 || c.val = 13 || c.val = 11 || c.val = 12

/-- Python regex `\w` on the ASCII fragment: alphanumerics and underscore. -/
def isWordChar (c : Char) : Bool := c.isAlphanum || c = '_'

/-- One attempted match of `http\S+|www\S+|https\S+` at the head of the
text: on success, returns the remainder after the (greedy) match.  The
`https\S+` alternative is subsumed by `http\S+` and can never be chosen. -/
def urlMatchRest (l : List Char) : Option (List Char) :=
  if ([ 'h', 't', 't', 'p' ]).isPrefixOf l then
    match l.drop 4 with
    | [] => none
    | c :: cs => if isPySpace c then none else some ((c :: cs).dropWhile (fun d => !isPySpace d))
  else if ([ 'w', 'w', 'w' ]).isPrefixOf l then
    match l.drop 3 with
    | [] => none
    | c :: cs => if isPySpace c then none else some ((c :: cs).dropWhile (fun d => !isPySpace d))
  else none

/-- One attempted match of `@\w+` at the head of the text. -/
def mentionMatchRest (l : List Char) : Option (List Char) :=
  match l with
  | '@' :: c :: cs =>
    if isWordChar c then some ((c :: cs).dropWhile isWordChar) else none
  | _ => none

/-- `re.sub(pattern, '', text)`: scan left to right, deleting each
non-overlapping match and resuming after it.  `matchRest` returns the
remainder after a match at the current position, or `none`.  Fuel is the
length of the text; every step consumes at least one character. -/
def reSubDelete (matchRest : List Char → Option (List Char)) : Nat → List Char → List Char
  | 0, l => l
  | _ + 1, [] => []
  | fuel + 1, c :: cs =>
    match matchRest (c :: cs) with
    | some rest => reSubDelete matchRest fuel rest
    | none => c :: reSubDelete matchRest fuel cs

/-- `re.sub(r'\s+', ' ', text)`: collapse each maximal whitespace run to a
single space. -/
def collapseWs : Nat → List Char → List Char
  | 0, l => l
  | _ + 1, [] => []
  | fuel + 1, c :: cs =>
    if isPySpace c then ' ' :: collapseWs fuel (cs.dropWhile isPySpace)
    else c :: collapseWs fuel cs

/-- Python `str.strip()`: drop leading and trailing whitespace. -/
def pyStrip (l : List Char) : List Char :=
  ((l.dropWhile isPySpace).reverse.dropWhile isPySpace).reverse

/-- `clean_tweet` from `sentiment_analyzer.py` (string case; the source
returns `""` for non-string input, which the `List Char` domain already
excludes): remove URLs, remove `@`-mentions, drop `#` markers, drop
non-word non-space characters, collapse whitespace and trim. -/
def clean_tweet (tweet : List Char) : List Char :=
  let t1 := reSubDelete urlMatchRest tweet.length tweet
  let t2 := reSubDelete mentionMatchRest t1.length t1
  let t3 := t2.filter (fun c => c != '#')
  let t4 := t3.filter (fun c => isWordChar c || isPySpace c)
  let t5 := collapseWs t4.length t4
  pyStrip t5

/-! ## `sentiment_analyzer.py`: sentiment categories and term tagging -/

/-- The three-way category computed inline in `analyze_sentiment_textblob`:
positive if polarity > 0, negative if < 0, else neutral. -/
def textblobCategoryOf (polarity : ℚ) : String :=
  if polarity > 0 then "positive" else if polarity < 0 then "negative" else "neutral"

/-- The VADER threshold 0.05 as a reducible rational. -/
def vaderThreshold : ℚ := mkRat 5 100

/-- The three-way category computed inline in `analyze_sentiment_vader`:
positive if compound ≥ 0.05, negative if compound ≤ -0.05, else neutral. -/
def vaderCategoryOf (compound : ℚ) : String :=
  if compound ≥ vaderThreshold then "positive"
  else if compound ≤ -vaderThreshold then "negative" else "neutral"

/-- `analyze_sentiment_textblob`, with the underlying TextBlob scorer
(a black-box library call that may raise) passed in as `score`.  Returns
(polarity, subjectivity, sentiment_category). -/
def analyze_sentiment_textblob (score : List Char → Except Unit (ℚ × ℚ))
    (text : List Char) : Except Unit (ℚ × ℚ × String) :=
  match score text with
  | .error e => .error e
  | .ok (p, s) => .ok (p, s, textblobCategoryOf p)

/-- `analyze_sentiment_vader`, with the underlying VADER scorer passed in
as `score`.  Returns (compound, positive, negative, neutral, category). -/
def analyze_sentiment_vader (score : List Char → Except Unit (ℚ × ℚ × ℚ × ℚ))
    (text : List Char) : Except Unit (ℚ × ℚ × ℚ × ℚ × String) :=
  match score text with
  | .error e => .error e
  | .ok (c, pos, neg, neu) => .ok (c, pos, neg, neu, vaderCategoryOf c)

/-- Executable substring test: does `p` occur contiguously in `l`?
Models Python's `in` operator on strings. -/
def isSubstrOf (p : List Char) : List Char → Bool
  | [] => p.isPrefixOf []
  | c :: t => p.isPrefixOf (c :: t) || isSubstrOf p t

/-- ASCII lowercasing, modelling `str.lower()`. -/
def lowerList (l : List Char) : List Char := l.map Char.toLower

/-- `extract_mental_health_terms`: collect, in vocabulary order, the terms
whose lowercase form occurs in the lowercase text.  The source builds the
result by appending inside a loop. -/
def extract_mental_health_terms (text : List Char) (vocab : List (List Char)) : List (List Char) :=
  let textLower := lowerList text
  vocab.foldl (fun found term =>
    if isSubstrOf (lowerList term) textLower then found ++ [term] else found) []

/-- The fixed vocabulary from `process_tweet_file`. -/
def mentalHealthVocab : List (List Char) :=
  ([ "mental health", "anxiety", "depression", "stress", "therapy",
     "self care", "mindfulness", "burnout", "mental wellbeing",
     "mental illness", "panic attack", "insomnia", "mental wellness" ]).map String.toList

/-- One output row of `process_tweet_file`. -/
structure ScoredRow where
  text : List Char
  cleaned_text : List Char
  textblob_polarity : ℚ
  textblob_subjectivity : ℚ
  textblob_category : String
  vader_compound : ℚ
  vader_positive : ℚ
  vader_negative : ℚ
  vader_neutral : ℚ
  vader_category : String
  mental_health_terms : List (List Char)
  contains_mental_health_term : Bool
deriving DecidableEq

/-- Assemble the output rows of `process_tweet_file` from the per-row
columns (texts, cleaned texts, TextBlob results, VADER results). -/
def buildRows : List (List Char) → List (List Char) →
    List (ℚ × ℚ × String) → List (ℚ × ℚ × ℚ × ℚ × String) → List ScoredRow
  | t :: ts, c :: cs, (tp, tsub, tcat) :: tbs, (vc, vp, vn, vneu, vcat) :: vds =>
    { text := t, cleaned_text := c,
      textblob_polarity := tp, textblob_subjectivity := tsub, textblob_category := tcat,
      vader_compound := vc, vader_positive := vp, vader_negative := vn,
      vader_neutral := vneu, vader_category := vcat,
      mental_health_terms := extract_mental_health_terms c mentalHealthVocab,
      contains_mental_health_term := decide (0 < (extract_mental_health_terms c mentalHealthVocab).length) }
      :: buildRows ts cs tbs vds
  | _, _, _, _ => []

/-- The data-processing core of `process_tweet_file`: an empty file yields
`None`; the text column is cleaned; both sentiment analyzers are applied
column-wise (a raise anywhere aborts the whole file, caught by the
enclosing `try`/`except` which returns `None`); terms are tagged and the
`contains_mental_health_term` flag is derived per row. -/
def process_tweet_file (tbScore : List Char → Except Unit (ℚ × ℚ))
    (vdScore : List Char → Except Unit (ℚ × ℚ × ℚ × ℚ))
    (tweets : List (List Char)) : Option (List ScoredRow) :=
  if tweets.isEmpty then none else
  let cleaned := tweets.map clean_tweet
  match mapE (analyze_sentiment_textblob tbScore) cleaned with
  | .error _ => none
  | .ok tbs =>
    match mapE (analyze_sentiment_vader vdScore) cleaned with
    | .error _ => none
    | .ok vds => some (buildRows tweets cleaned tbs vds)

/-! ## `database_setup.py`: cell values and data frames -/

/-- A cell value in a pandas `DataFrame`.  `pd.read_csv` produces only
`str`, `num` and `nan` cells; `pyList` (an in-memory Python list) and
`dictV` (a nested object) are carried so the `isinstance` branches of the
source are represented.  `jsonList l` stands for the string
`json.dumps l` (see the header). -/
inductive Value where
  | str (s : String)
  | num (q : ℚ)
  | nan
  | pyList (l : List String)
  | jsonList (l : List String)
  | dictV (d : List (String × String))
deriving DecidableEq

/-- A pandas `DataFrame`: a column-name list plus rows of cells keyed by
column name.  A key absent from a row reads as NaN, as for a ragged CSV. -/
structure DataFrame where
  cols : List String
  rows : List (List (String × Value))
deriving DecidableEq

/-- Read one cell (missing key ↦ NaN). -/
def getCell (r : List (String × Value)) (c : String) : Value :=
  match r.lookup c with
  | some v => v
  | none => .nan

/-- Write one cell, replacing an existing key or appending a new one. -/
def setCell (r : List (String × Value)) (c : String) (v : Value) : List (String × Value) :=
  if (r.lookup c).isSome then
    r.map (fun p => if p.1 = c then (c, v) else p)
  else r ++ [(c, v)]

/-- Add a column name if not already present. -/
def addCol (cols : List String) (c : String) : List String :=
  if c ∈ cols then cols else cols ++ [c]

/-- `df[c] = const`: set a whole column to one value. -/
def setColConst (df : DataFrame) (c : String) (v : Value) : DataFrame :=
  ⟨addCol df.cols c, df.rows.map (fun r => setCell r c v)⟩

/-- `df[c] = df[c].apply(f)` for a total `f`. -/
def mapCol (df : DataFrame) (c : String) (f : Value → Value) : DataFrame :=
  ⟨addCol df.cols c, df.rows.map (fun r => setCell r c (f (getCell r c)))⟩

/-! ## `database_setup.py`: column names and reconciliation stages -/

def colId : String := "id"
def colTweetId : String := "tweet_id"
def colText : String := "text"
def colCleaned : String := "cleaned_text"
def colCreated : String := "created_at"
def colCollected : String := "collected_at"
def colKeyword : String := "search_keyword"
def colTbPol : String := "textblob_polarity"
def colTbSubj : String := "textblob_subjectivity"
def colTbCat : String := "textblob_category"
def colVdComp : String := "vader_compound"
def colVdPos : String := "vader_positive"
def colVdNeg : String := "vader_negative"
def colVdNeu : String := "vader_neutral"
def colVdCat : String := "vader_category"
def colTerms : String := "mental_health_terms"
def colContains : String := "contains_mental_health_term"
def colUser : String := "user"
def colUsername : String := "username"
def colRetweet : String := "retweet_count"
def colFavorite : String := "favorite_count"

/-- The `required_columns` list of `import_processed_data`. -/
def requiredColumns : List String :=
  [ colTweetId, colText, colCleaned, colCreated, colCollected,
    colKeyword, colTbPol, colTbSubj, colTbCat, colVdComp, colVdPos,
    colVdNeg, colVdNeu, colVdCat, colTerms, colContains ]

/-- The six numeric score columns defaulted to 0.0. -/
def numericScoreCols : List String :=
  [ colTbPol, colTbSubj, colVdComp, colVdPos, colVdNeg, colVdNeu ]

/-- Stage 1: `df.rename(columns={'id': 'tweet_id'})` when an `id` column
is present. -/
def stage1Rename (df : DataFrame) : DataFrame :=
  if colId ∈ df.cols then
    ⟨df.cols.map (fun c => if c = colId then colTweetId else c),
     df.rows.map (fun r => r.map (fun p => if p.1 = colId then (colTweetId, p.2) else p))⟩
  else df

/-- `df['tweet_id'] = df.index.astype(str)`: synthesize identifiers from
the positional index. -/
def tweetIdFromIndex (df : DataFrame) : DataFrame :=
  ⟨addCol df.cols colTweetId,
   df.rows.mapIdx (fun i r => setCell r colTweetId (.str (toString i)))⟩

/-- One iteration of the missing-column defaulting loop.  The
`mental_health_terms` branch reads `df['mental_health_terms']` while the
column is absent, raising `KeyError` — modelled as the error case. -/
def defaultStep (now : String) (df : DataFrame) (c : String) : Except Unit DataFrame :=
  if c ∈ df.cols then .ok df
  else if c = colTweetId then .ok (tweetIdFromIndex df)
  else if c = colCreated ∨ c = colCollected then .ok (setColConst df c (.str now))
  else if c = colKeyword then .ok (setColConst df c (.str ("unknown")))
  else if c ∈ numericScoreCols then .ok (setColConst df c (.num 0))
  else if c = colTbCat ∨ c = colVdCat then .ok (setColConst df c (.str ("neutral")))
  else if c = colTerms then .error ()
  else if c = colContains then .ok (setColConst df c (.num 0))
  else .ok (setColConst df c (.str ("")))

/-- Stage 2: the defaulting loop over `required_columns`. -/
def stage2Defaults (now : String) (df : DataFrame) : Except Unit DataFrame :=
  foldE (defaultStep now) df requiredColumns

/-! ## `database_setup.py`: the encoded-list coercion (and its `eval`) -/

def squote : Char := Char.ofNat 39
def dquote : Char := Char.ofNat 34

/-- Skip spaces and tabs. -/
def skipWs (l : List Char) : List Char := l.dropWhile (fun c => c = ' ' || c.val = 9)

/-- Parse one quoted string literal (either quote character, no escape
sequences — the fragment produced by the pipeline). -/
def parseStrLit (l : List Char) : Option (List Char × List Char) :=
  match l with
  | q :: rest =>
    if q = squote ∨ q = dquote then
      let content := rest.takeWhile (fun c => c != q)
      match rest.dropWhile (fun c => c != q) with
      | q2 :: rest2 => if q2 = q then some (content, rest2) else none
      | [] => none
    else none
  | [] => none

/-- Parse the comma-separated elements of a list literal up to and
including the closing bracket; allows a trailing comma as Python does. -/
def parseElems : Nat → List Char → Option (List String × List Char)
  | 0, _ => none
  | fuel + 1, l =>
    match parseStrLit (skipWs l) with
    | none => none
    | some (s, rest) =>
      match skipWs rest with
      | ']' :: r2 => some ([String.mk s], r2)
      | ',' :: r2 =>
        match skipWs r2 with
        | ']' :: r3 => some ([String.mk s], r3)
        | r3 =>
          match parseElems fuel r3 with
          | some (ss, r4) => some (String.mk s :: ss, r4)
          | none => none
      | _ => none

/-- `eval(x)` / `json.loads(x)` on the list-of-quoted-strings fragment:
returns the element list when `x` is a well-formed list literal with
nothing but whitespace after it, and `none` (a raise) otherwise. -/
def pyEvalList (l : List Char) : Option (List String) :=
  match skipWs l with
  | '[' :: r =>
    match skipWs r with
    | ']' :: r2 => if (skipWs r2).isEmpty then some [] else none
    | r2 =>
      match parseElems r2.length r2 with
      | some (ss, rest) => if (skipWs rest).isEmpty then some ss else none
      | none => none
  | _ => none

/-- The per-cell lambda of the `mental_health_terms` conversion:
`json.dumps(x)` for a list, `json.dumps(eval(x))` for a string starting
with `[` (where `eval` may raise), `json.dumps([])` otherwise. -/
def convertTermCell (v : Value) : Except Unit Value :=
  match v with
  | .pyList l => .ok (.jsonList l)
  | .str s =>
    if s.toList.head? = some '[' then
      match pyEvalList s.toList with
      | some l => .ok (.jsonList l)
      | none => .error ()
    else .ok (.jsonList [])
  | _ => .ok (.jsonList [])

/-- Stage 3: apply the conversion across the `mental_health_terms`
column (guarded, as in the source, by the column's presence). -/
def stage3Terms (df : DataFrame) : Except Unit DataFrame :=
  if colTerms ∈ df.cols then
    match mapE (fun r => (convertTermCell (getCell r colTerms)).map
        (fun v => setCell r colTerms v)) df.rows with
    | .ok rows2 => .ok ⟨df.cols, rows2⟩
    | .error e => .error e
  else .ok df

/-! ## `database_setup.py`: username extraction -/

/-- `json.loads` on the flat string-to-string object fragment
(`{"k": "v", ...}`); anything else is a raise (`none`). -/
def jsonLoadsDict (s : String) : Option (List (String × String)) :=
  match skipWs s.toList with
  | '{' :: r =>
    match skipWs r with
    | '}' :: r2 => if (skipWs r2).isEmpty then some [] else none
    | r2 => jsonLoadsDictElems r2.length r2
  | _ => none
where
  /-- Parse `"k": "v"` pairs up to the closing brace. -/
  jsonLoadsDictElems : Nat → List Char → Option (List (String × String))
  | 0, _ => none
  | fuel + 1, l =>
    match parseStrLit (skipWs l) with
    | none => none
    | some (k, rest) =>
      match skipWs rest with
      | ':' :: r2 =>
        match parseStrLit (skipWs r2) with
        | none => none
        | some (v, r3) =>
          match skipWs r3 with
          | '}' :: r4 => if (skipWs r4).isEmpty then some [(String.mk k, String.mk v)] else none
          | ',' :: r4 =>
            match jsonLoadsDictElems fuel r4 with
            | some ps => some ((String.mk k, String.mk v) :: ps)
            | none => none
          | _ => none
      | _ => none

/-- The per-cell lambda of the username extraction: a dict yields
`x.get('username', '')`; a string is `json.loads`-ed (a parse failure, or
a non-object result whose `.get` would raise, is a raise); anything else
yields `''`. -/
def extractUsernameCell (v : Value) : Except Unit Value :=
  match v with
  | .dictV d => .ok (.str ((d.lookup colUsername).getD ("")))
  | .str s =>
    match jsonLoadsDict s with
    | some d => .ok (.str ((d.lookup colUsername).getD ("")))
    | none => .error ()
  | _ => .ok (.str (""))

/-- Stage 4: when a `user` column exists and `username` does not, derive
`username` per row; if the column-wide apply raises anywhere, the
`except` clause sets the whole column to `''`. -/
def stage4Username (df : DataFrame) : DataFrame :=
  if colUser ∈ df.cols ∧ colUsername ∉ df.cols then
    match mapE (fun r => (extractUsernameCell (getCell r colUser)).map
        (fun v => setCell r colUsername v)) df.rows with
    | .ok rows2 => ⟨addCol df.cols colUsername, rows2⟩
    | .error _ => setColConst df colUsername (.str (""))
  else df

/-! ## `database_setup.py`: the four tables and their append semantics -/

/-- One row of the `tweets` table (primary key `tweet_id`). -/
structure TweetRow where
  tweet_id : Value
  text : Value
  cleaned_text : Value
  created_at : Value
  collected_at : Value
  search_keyword : Value
  username : Value
  retweet_count : Value
  favorite_count : Value
deriving DecidableEq

/-- One row of the `tweet_sentiment` table (primary key `tweet_id`). -/
structure SentRow where
  tweet_id : Value
  textblob_polarity : Value
  textblob_subjectivity : Value
  textblob_category : Value
  vader_compound : Value
  vader_positive : Value
  vader_negative : Value
  vader_neutral : Value
  vader_category : Value
  contains_mental_health_term : Value
  mental_health_terms : Value
deriving DecidableEq

/-- One row of the `mental_health_terms` table (`term_text` is UNIQUE). -/
structure TermRow where
  term_text : String
  category : String
  occurrence_count : Nat
deriving DecidableEq

/-- One row of the `user_metrics` table (primary key `username`). -/
structure UserRow where
  username : Value
  tweet_count : Value
  avg_textblob_polarity : Value
  avg_vader_compound : Value
  mental_health_tweet_count : Value
  avg_engagement : Value
deriving DecidableEq

/-- The connection-visible database state. -/
structure Db where
  tweets : List TweetRow
  sentiment : List SentRow
  terms : List TermRow
  user_metrics : List UserRow
deriving DecidableEq

/-- SQLite primary-key conflict test for a batched `executemany` append:
a non-NULL key equal to an existing key, or to an earlier key of the same
batch, violates the constraint (NULLs are all distinct). -/
def pkConflict (existing : List Value) : List Value → Bool
  | [] => false
  | v :: vs =>
    (v != .nan && existing.contains v) || pkConflict (v :: existing) vs

/-- `tweets_df.to_sql('tweets', conn, if_exists='append')`: pandas wraps
the insert in a transaction, so a key conflict leaves the table unchanged
and raises; on success the batch is appended (and committed). -/
def insertTweets (db : Db) (rows : List TweetRow) : Except Unit Db :=
  if pkConflict (db.tweets.map (·.tweet_id)) (rows.map (·.tweet_id)) then .error ()
  else .ok { db with tweets := db.tweets ++ rows }

/-- `sentiment_df.to_sql('tweet_sentiment', ...)`, as for `insertTweets`. -/
def insertSentiment (db : Db) (rows : List SentRow) : Except Unit Db :=
  if pkConflict (db.sentiment.map (·.tweet_id)) (rows.map (·.tweet_id)) then .error ()
  else .ok { db with sentiment := db.sentiment ++ rows }

/-- `user_metrics.to_sql('user_metrics', ...)`, primary key `username`. -/
def insertUserMetrics (db : Db) (rows : List UserRow) : Except Unit Db :=
  if pkConflict (db.user_metrics.map (·.username)) (rows.map (·.username)) then .error ()
  else .ok { db with user_metrics := db.user_metrics ++ rows }

/-! ## `database_setup.py`: column selections -/

/-- Columns selected into `tweets_df`. -/
def tweetSelCols : List String :=
  [ colTweetId, colText, colCleaned, colCreated, colCollected, colKeyword, colUsername ]

/-- Build one `tweets` row; `retweet_count`/`favorite_count` default to 0
when their columns are absent (lines 159–168 of the source). -/
def rowToTweet (hasRetweet hasFavorite : Bool) (r : List (String × Value)) : TweetRow :=
  { tweet_id := getCell r colTweetId
    text := getCell r colText
    cleaned_text := getCell r colCleaned
    created_at := getCell r colCreated
    collected_at := getCell r colCollected
    search_keyword := getCell r colKeyword
    username := getCell r colUsername
    retweet_count := if hasRetweet then getCell r colRetweet else .num 0
    favorite_count := if hasFavorite then getCell r colFavorite else .num 0 }

/-- `df[[...]]` for `tweets_df`: raises `KeyError` when any selected
column is missing (this is where a frame with neither `user` nor
`username` fails). -/
def selectTweets (df : DataFrame) : Except Unit (List TweetRow) :=
  if tweetSelCols.all (fun c => df.cols.contains c) then
    .ok (df.rows.map (rowToTweet (df.cols.contains colRetweet) (df.cols.contains colFavorite)))
  else .error ()

/-- Columns selected into `sentiment_df`. -/
def sentSelCols : List String :=
  [ colTweetId, colTbPol, colTbSubj, colTbCat, colVdComp, colVdPos,
    colVdNeg, colVdNeu, colVdCat, colContains, colTerms ]

/-- Build one `tweet_sentiment` row. -/
def rowToSent (r : List (String × Value)) : SentRow :=
  { tweet_id := getCell r colTweetId
    textblob_polarity := getCell r colTbPol
    textblob_subjectivity := getCell r colTbSubj
    textblob_category := getCell r colTbCat
    vader_compound := getCell r colVdComp
    vader_positive := getCell r colVdPos
    vader_negative := getCell r colVdNeg
    vader_neutral := getCell r colVdNeu
    vader_category := getCell r colVdCat
    contains_mental_health_term := getCell r colContains
    mental_health_terms := getCell r colTerms }

/-- `df[[...]]` for `sentiment_df` (all its columns are in
`required_columns`, so after defaulting this cannot fail, but the check
is kept). -/
def selectSentiment (df : DataFrame) : Except Unit (List SentRow) :=
  if sentSelCols.all (fun c => df.cols.contains c) then
    .ok (df.rows.map rowToSent)
  else .error ()

/-! ## `database_setup.py`: term counting and upserts -/

/-- The list a `mental_health_terms` cell contributes to `all_terms`:
`json.loads` of an encoded list yields its elements; an in-memory list is
taken as is; a string that does not parse is skipped by the
`try`/`except: pass`; any non-list value contributes nothing. -/
def termsOfCell (v : Value) : List String :=
  match v with
  | .jsonList l => l
  | .pyList l => l
  | .str s => (pyEvalList s.toList).getD []
  | _ => []

/-- Increment `t` in an insertion-ordered count map (Python dict
semantics: first occurrence fixes the position). -/
def bumpCount (t : String) : List (String × Nat) → List (String × Nat)
  | [] => [(t, 1)]
  | (s, n) :: rest => if s = t then (s, n + 1) :: rest else (s, n) :: bumpCount t rest

/-- `term_counts`: occurrences of each term across the whole batch. -/
def termCounts (df : DataFrame) : List (String × Nat) :=
  ((df.rows.map (fun r => termsOfCell (getCell r colTerms))).flatten).foldl
    (fun m t => bumpCount t m) []

/-- `INSERT ... ON CONFLICT(term_text) DO UPDATE SET occurrence_count =
occurrence_count + ?`: insert a fresh row with category `'general'`, or
add the batch count to the existing row. -/
def upsertTerm (p : String × Nat) : List TermRow → List TermRow
  | [] => [{ term_text := p.1, category := "general", occurrence_count := p.2 }]
  | row :: rest =>
    if row.term_text = p.1 then
      { row with occurrence_count := row.occurrence_count + p.2 } :: rest
    else row :: upsertTerm p rest

/-- Apply every term upsert of a batch to the terms table. -/
def applyTermCounts (tbl : List TermRow) (counts : List (String × Nat)) : List TermRow :=
  counts.foldl (fun t p => upsertTerm p t) tbl

/-- Run the upserts against the database state. -/
def upsertTermsDb (db : Db) (counts : List (String × Nat)) : Db :=
  { db with terms := applyTermCounts db.terms counts }

/-! ## `database_setup.py`: per-user aggregation -/

/-- Total order used to present groups in sorted key order, as pandas
`groupby(sort=True)` does; pandas raises on mixed-type keys, which this
total order totalises (only same-constructor comparisons occur in
practice). -/
def valueRank : Value → Nat
  | .str _ => 0
  | .num _ => 1
  | .nan => 2
  | .pyList _ => 3
  | .jsonList _ => 4
  | .dictV _ => 5

/-- Boolean comparison on `Value` used for group ordering. -/
def valueLe (a b : Value) : Bool :=
  match a, b with
  | .str x, .str y => compare x y != Ordering.gt
  | .num p, .num q => decide (p ≤ q)
  | _, _ => valueRank a ≤ valueRank b

/-- Insertion into a sorted list. -/
def insertSortedVal (v : Value) : List Value → List Value
  | [] => [v]
  | w :: ws => if valueLe v w then v :: w :: ws else w :: insertSortedVal v ws

/-- Insertion sort by `valueLe`. -/
def sortVals : List Value → List Value
  | [] => []
  | v :: vs => insertSortedVal v (sortVals vs)

/-- First-occurrence deduplication (`seen` accumulates emitted values). -/
def dedupVals (seen : List Value) : List Value → List Value
  | [] => []
  | v :: vs =>
    if seen.contains v then dedupVals seen vs
    else v :: dedupVals (v :: seen) vs

/-- The group keys of `df.groupby('username')`: the distinct non-null
`username` values, in sorted order.  NaN keys are dropped (`dropna=True`
is the pandas default); the empty string is an ordinary key. -/
def groupKeys (df : DataFrame) : List Value :=
  sortVals (dedupVals [] ((df.rows.map (fun r => getCell r colUsername)).filter
    (fun v => v != Value.nan)))

/-- pandas `count` aggregation: the number of non-null cells. -/
def colCount (vs : List Value) : Nat :=
  (vs.filter (fun v => v != Value.nan)).length

/-- pandas `mean` aggregation: skip NaN, average the numbers; an empty
column gives NaN; a non-numeric cell raises `TypeError`. -/
def colMean (vs : List Value) : Except Unit Value :=
  if vs.all (fun v => match v with | .num _ => true | .nan => true | _ => false) then
    let nums := vs.filterMap (fun v => match v with | .num q => some q | _ => none)
    if nums.isEmpty then .ok .nan
    else .ok (.num (qdivNat (qsum nums) nums.length))
  else .error ()

/-- pandas `sum` aggregation: skip NaN and sum the numbers (empty sum 0);
an all-string object column is concatenated; mixed types raise. -/
def colSum (vs : List Value) : Except Unit Value :=
  if vs.all (fun v => match v with | .num _ => true | .nan => true | _ => false) then
    .ok (.num (qsum (vs.filterMap (fun v => match v with | .num q => some q | _ => none))))
  else if vs.all (fun v => match v with | .str _ => true | _ => false) then
    .ok (.str (String.join (vs.filterMap
      (fun v => match v with | .str s => some s | _ => none))))
  else .error ()

/-- `(retweet_mean + favorite_mean) / 2` with NaN propagation. -/
def engagementOf (r f : Value) : Value :=
  match r, f with
  | .num a, .num b => .num (qdivNat (qadd a b) 2)
  | _, _ => .nan

/-- The aggregation row for one username group (lines 206–227 of the
source): count of non-null ids, means of the two score columns, sum of
the term flag, and the derived average engagement. -/
def userRowFor (df : DataFrame) (key : Value) : Except Unit UserRow :=
  let group := df.rows.filter (fun r => getCell r colUsername == key)
  match colMean (group.map (fun r => getCell r colTbPol)),
        colMean (group.map (fun r => getCell r colVdComp)),
        colSum (group.map (fun r => getCell r colContains)),
        colMean (group.map (fun r => getCell r colRetweet)),
        colMean (group.map (fun r => getCell r colFavorite)) with
  | .ok mtb, .ok mvd, .ok msum, .ok mr, .ok mf =>
    .ok { username := key
          tweet_count := .num (colCount (group.map (fun r => getCell r colTweetId)))
          avg_textblob_polarity := mtb
          avg_vader_compound := mvd
          mental_health_tweet_count := msum
          avg_engagement := engagementOf mr mf }
  | _, _, _, _, _ => .error ()

/-- The columns referenced by the aggregation dict; `retweet_count` and
`favorite_count` are not in `required_columns`, so their absence from the
frame makes the `groupby(...).agg(...)` call raise `KeyError`. -/
def aggCols : List String :=
  [ colUsername, colTweetId, colTbPol, colVdComp, colContains, colRetweet, colFavorite ]

/-- `df.groupby('username').agg({...})` plus the engagement computation:
one row per non-null username, in sorted key order. -/
def userMetricsOf (df : DataFrame) : Except Unit (List UserRow) :=
  if aggCols.all (fun c => df.cols.contains c) then
    mapE (userRowFor df) (groupKeys df)
  else .error ()

/-! ## `database_setup.py`: `import_processed_data` -/

/-- `import_processed_data(conn, csv_file)`.  The whole body sits in one
`try`/`except` that prints and returns 0; there is no rollback, and each
`to_sql` call commits, so on a late failure the earlier sub-table writes
of the batch remain visible.  Returns the reported record count and the
connection-visible database state. -/
def import_processed_data (now : String) (db : Db) (df0 : DataFrame) : Nat × Db :=
  match stage2Defaults now (stage1Rename df0) with
  | .error _ => (0, db)
  | .ok df1 =>
    match stage3Terms df1 with
    | .error _ => (0, db)
    | .ok df2 =>
      let df3 := stage4Username df2
      match selectTweets df3 with
      | .error _ => (0, db)
      | .ok trows =>
        match insertTweets db trows with
        | .error _ => (0, db)
        | .ok db1 =>
          match selectSentiment df3 with
          | .error _ => (0, db1)
          | .ok srows =>
            match insertSentiment db1 srows with
            | .error _ => (0, db1)
            | .ok db2 =>
              let db3 := upsertTermsDb db2 (termCounts df3)
              match userMetricsOf df3 with
              | .error _ => (0, db3)
              | .ok urows =>
                match insertUserMetrics db3 urows with
                | .error _ => (0, db3)
                | .ok db4 => (df3.rows.length, db4)

/-! ## Concrete instances used by the claim analyses -/

/-- A fixed ingestion timestamp standing in for `datetime.now()`. -/
def now0 : String := "2025-01-01T00:00:00"

/-- A freshly created database (all four tables empty). -/
def dbEmpty : Db := ⟨[], [], [], []⟩

/-- The JSON-encoded list `["anxiety"]` as a CSV cell string. -/
def anxietyLit : String := String.mk ['[', dquote, 'a', 'n', 'x', 'i', 'e', 't', 'y', dquote, ']']

/-- The Python-encoded list `['stress']` as a CSV cell string. -/
def stressLit : String := String.mk ['[', squote, 's', 't', 'r', 'e', 's', 's', squote, ']']

/-- C1 batch, row with an identifier. -/
def rowC1a : List (String × Value) :=
  [(colTweetId, .str ("1")), (colUsername, .str ("a")), (colTerms, .nan),
   (colRetweet, .num 0), (colFavorite, .num 0)]

/-- C1 batch, row whose primary identifier is missing (NaN). -/
def rowC1b : List (String × Value) :=
  [(colTweetId, .nan), (colUsername, .str ("a")), (colTerms, .nan),
   (colRetweet, .num 0), (colFavorite, .num 0)]

/-- C1: a two-row batch of which one row lacks the primary identifier. -/
def csvC1 : DataFrame :=
  ⟨[colTweetId, colUsername, colTerms, colRetweet, colFavorite], [rowC1a, rowC1b]⟩

/-- C2: a batch whose term-list cell is a malformed encoded list. -/
def rowC2 : List (String × Value) :=
  [(colTweetId, .str ("1")), (colUsername, .str ("a")), (colTerms, .str ("[broken")),
   (colRetweet, .num 0), (colFavorite, .num 0)]

/-- C2: the batch around `rowC2`. -/
def csvC2 : DataFrame :=
  ⟨[colTweetId, colUsername, colTerms, colRetweet, colFavorite], [rowC2]⟩

/-- C3: a well-keyed row whose `retweet_count` cell is a non-numeric
string, making the user-metrics aggregation raise after the posts and
sentiment writes have succeeded. -/
def rowC3 : List (String × Value) :=
  [(colTweetId, .str ("1")), (colUsername, .str ("a")), (colTerms, .nan),
   (colRetweet, .str ("abc")), (colFavorite, .num 0)]

/-- C3: the batch around `rowC3`. -/
def csvC3 : DataFrame :=
  ⟨[colTweetId, colUsername, colTerms, colRetweet, colFavorite], [rowC3]⟩

/-- C4: a one-row batch contributing one occurrence of `anxiety`. -/
def rowC4 : List (String × Value) :=
  [(colTweetId, .str ("1")), (colUsername, .str ("a")), (colTerms, .str anxietyLit),
   (colRetweet, .num 0), (colFavorite, .num 0)]

/-- C4: the batch around `rowC4`. -/
def csvC4 : DataFrame :=
  ⟨[colTweetId, colUsername, colTerms, colRetweet, colFavorite], [rowC4]⟩

/-- C9: a row whose author is the empty string. -/
def rowC9a : List (String × Value) :=
  [(colTweetId, .str ("1")), (colUsername, .str ("")), (colTerms, .str stressLit),
   (colRetweet, .num 0), (colFavorite, .num 0)]

/-- C9: a row whose author is missing (NaN). -/
def rowC9b : List (String × Value) :=
  [(colTweetId, .str ("2")), (colUsername, .nan), (colTerms, .str stressLit),
   (colRetweet, .num 0), (colFavorite, .num 0)]

/-- C9: empty-string author and null author side by side. -/
def csvC9 : DataFrame :=
  ⟨[colTweetId, colUsername, colTerms, colRetweet, colFavorite], [rowC9a, rowC9b]⟩

/-- C10 witness: a batch with rows but with neither a `user` nor a
`username` column. -/
def csvC10 : DataFrame :=
  ⟨[colTweetId, colTerms, colRetweet, colFavorite],
   [[(colTweetId, .str ("1")), (colTerms, .nan), (colRetweet, .num 0), (colFavorite, .num 0)]]⟩

/-- A TextBlob scorer that always succeeds with zero scores. -/
def tbZero : List Char → Except Unit (ℚ × ℚ) := fun _ => .ok (0, 0)

/-- A VADER scorer that always succeeds with zero scores. -/
def vdZero : List Char → Except Unit (ℚ × ℚ × ℚ × ℚ) := fun _ => .ok (0, 0, 0, 0)

/-- A TextBlob scorer that raises exactly on the cleaned text `bad`. -/
def tbFailsOnBad : List Char → Except Unit (ℚ × ℚ) :=
  fun t => if t = ("bad").toList then .error () else .ok (0, 0)

/-- A TextBlob scorer that raises exactly on the cleaned text `x`. -/
def tbFailsOnX : List Char → Except Unit (ℚ × ℚ) :=
  fun t => if t = ("x").toList then .error () else .ok (0, 0)

/-- Observer: the persisted occurrence count of a term (0 when absent);
reads the first matching row, as SQLite does for a unique key. -/
def lookupCount : List TermRow → String → Nat
  | [], _ => 0
  | row :: rest, t => if row.term_text = t then row.occurrence_count else lookupCount rest t

/-- Observer: the total count a batch's `term_counts` map assigns to a
term. -/
def countOf (counts : List (String × Nat)) (t : String) : Nat :=
  ((counts.filter (fun p => p.1 == t)).map (·.2)).sum

/-- C1: a two-row batch with no identifier column at all (ids must be
synthesized from the index). -/
def csvC1b : DataFrame :=
  ⟨[colUsername, colTerms, colRetweet, colFavorite],
   [[(colUsername, .str ("a")), (colTerms, .nan), (colRetweet, .num 0), (colFavorite, .num 0)],
    [(colUsername, .str ("a")), (colTerms, .nan), (colRetweet, .num 0), (colFavorite, .num 0)]]⟩

/-- The row `process_tweet_file` produces for the text `hello` under the
all-zero scorers. -/
def rowHello : ScoredRow :=
  { text := ("hello").toList, cleaned_text := ("hello").toList,
    textblob_polarity := 0, textblob_subjectivity := 0, textblob_category := "neutral",
    vader_compound := 0, vader_positive := 0, vader_negative := 0, vader_neutral := 0,
    vader_category := "neutral", mental_health_terms := [],
    contains_mental_health_term := false }

/-! ## Bridge lemmas for the reducible rational arithmetic -/

/-- `qadd` is ordinary addition on `ℚ`. -/
theorem qadd_eq_add (a b : ℚ) : qadd a b = a + b := by
  have ha : (a.den : ℚ) ≠ 0 := by exact_mod_cast a.den_nz
  have hb : (b.den : ℚ) ≠ 0 := by exact_mod_cast b.den_nz
  rw [qadd, Rat.mkRat_eq_div]
  push_cast
  conv_rhs => rw [← Rat.num_div_den a, ← Rat.num_div_den b]
  rw [div_add_div _ _ ha hb]
  congr 1
  ring

/-- `qdivNat` is ordinary division on `ℚ` (both sides are 0 at `n = 0`). -/
theorem qdivNat_eq_div (a : ℚ) (n : Nat) : qdivNat a n = a / n := by
  rw [qdivNat, Rat.mkRat_eq_div]
  push_cast
  rw [← div_div, Rat.num_div_den]

/-- `qsum` is the ordinary list sum on `ℚ`. -/
theorem qsum_eq_sum (l : List ℚ) : qsum l = l.sum := by
  induction l with
  | nil => rfl
  | cons x xs ih =>
    show qadd x (qsum xs) = _
    rw [qadd_eq_add, ih, List.sum_cons]

/-! ## Substring and term-extraction lemmas -/

/-- The executable substring test agrees with `List.IsInfix`. -/
theorem isSubstrOf_iff_infix (p l : List Char) : isSubstrOf p l = true ↔ p <:+: l := by
  induction l with
  | nil =>
    simp [isSubstrOf, List.infix_nil, List.isPrefixOf_iff_prefix]
  | cons c t ih =>
    simp only [isSubstrOf, Bool.or_eq_true, ih, List.infix_cons_iff,
      List.isPrefixOf_iff_prefix]

/-- The append-in-a-loop accumulation of the source is a filter. -/
theorem foldl_append_filter (p : List Char → Bool) (vocab : List (List Char))
    (acc : List (List Char)) :
    vocab.foldl (fun found term => if p term then found ++ [term] else found) acc
      = acc ++ vocab.filter p := by
  induction vocab generalizing acc with
  | nil => simp
  | cons v vs ih =>
    simp only [List.foldl_cons, List.filter_cons]
    by_cases h : p v = true
    · rw [if_pos h, ih, h]; simp
    · rw [if_neg h, ih]
      simp [h]

/-- `extract_mental_health_terms` filters the vocabulary in order. -/
theorem extract_eq_filter (text : List Char) (vocab : List (List Char)) :
    extract_mental_health_terms text vocab
      = vocab.filter (fun t => isSubstrOf (lowerList t) (lowerList text)) := by
  rw [extract_mental_health_terms, foldl_append_filter]
  rfl

/-! ## Lemmas about fallible traversals -/

/-- A successful `mapE` preserves length. -/
theorem mapE_length {α β : Type} (f : α → Except Unit β) (l : List α) (l2 : List β)
    (h : mapE f l = .ok l2) : l2.length = l.length := by
  induction l generalizing l2 with
  | nil => cases h; rfl
  | cons a as ih =>
    rw [mapE] at h
    cases hf : f a with
    | error e => rw [hf] at h; cases h
    | ok b =>
      rw [hf] at h
      cases hm : mapE f as with
      | error e => rw [hm] at h; cases h
      | ok bs =>
        rw [hm] at h
        cases h
        simp [ih bs hm]

/-- `mapE` succeeds when every element succeeds. -/
theorem mapE_ok_of_all {α β : Type} (f : α → Except Unit β) (l : List α)
    (h : ∀ a ∈ l, isOkE (f a) = true) : ∃ l2, mapE f l = .ok l2 := by
  induction l with
  | nil => exact ⟨[], rfl⟩
  | cons a as ih =>
    have ha := h a (List.mem_cons_self a as)
    cases hf : f a with
    | error e => rw [hf] at ha; simp [isOkE] at ha
    | ok b =>
      obtain ⟨l2, hl2⟩ := ih (fun x hx => h x (List.mem_cons_of_mem a hx))
      exact ⟨b :: l2, by rw [mapE, hf, hl2]⟩

/-- `mapE` fails as soon as any element fails. -/
theorem mapE_error_of_mem {α β : Type} (f : α → Except Unit β) (l : List α) (a : α)
    (ha : a ∈ l) (hf : isOkE (f a) = false) : mapE f l = .error () := by
  induction l with
  | nil => cases ha
  | cons x xs ih =>
    rw [mapE]
    rcases List.mem_cons.mp ha with rfl | hmem
    · cases hx : f a with
      | error e => rfl
      | ok b => rw [hx] at hf; simp [isOkE] at hf
    · cases hx : f x with
      | error e => rfl
      | ok b => rw [ih hmem]

/-! ## Row-count preservation through the reconciliation stages -/

/-- Setting a whole column does not change the number of rows. -/
theorem rows_length_setColConst (df : DataFrame) (c : String) (v : Value) :
    (setColConst df c v).rows.length = df.rows.length := by
  simp [setColConst]

/-- Renaming `id` does not change the number of rows. -/
theorem rows_length_stage1 (df : DataFrame) :
    (stage1Rename df).rows.length = df.rows.length := by
  rw [stage1Rename]
  split <;> simp

/-- Synthesizing identifiers from the index does not change the number of
rows. -/
theorem rows_length_tweetIdFromIndex (df : DataFrame) :
    (tweetIdFromIndex df).rows.length = df.rows.length := by
  simp [tweetIdFromIndex]

/-- A successful defaulting step preserves the number of rows. -/
theorem rows_length_defaultStep (now : String) (df df2 : DataFrame) (c : String)
    (h : defaultStep now df c = .ok df2) : df2.rows.length = df.rows.length := by
  rw [defaultStep] at h
  split_ifs at h <;> cases h <;>
    simp [rows_length_tweetIdFromIndex, rows_length_setColConst]

/-- The whole defaulting loop preserves the number of rows. -/
theorem rows_length_foldE_default (now : String) (cs : List String) (df df2 : DataFrame)
    (h : foldE (defaultStep now) df cs = .ok df2) : df2.rows.length = df.rows.length := by
  induction cs generalizing df with
  | nil => cases h; rfl
  | cons c rest ih =>
    rw [foldE] at h
    cases hs : defaultStep now df c with
    | error e => rw [hs] at h; cases h
    | ok dfm =>
      rw [hs] at h
      rw [ih dfm h, rows_length_defaultStep now df dfm c hs]

/-- The term-list coercion preserves the number of rows. -/
theorem rows_length_stage3 (df df2 : DataFrame) (h : stage3Terms df = .ok df2) :
    df2.rows.length = df.rows.length := by
  rw [stage3Terms] at h
  split at h
  · cases hm : mapE (fun r => (convertTermCell (getCell r colTerms)).map
        (fun v => setCell r colTerms v)) df.rows with
    | error e => rw [hm] at h; cases h
    | ok rows2 => rw [hm] at h; cases h; exact mapE_length _ _ _ hm
  · cases h; rfl

/-- The username-extraction stage preserves the number of rows. -/
theorem rows_length_stage4 (df : DataFrame) :
    (stage4Username df).rows.length = df.rows.length := by
  rw [stage4Username]
  split
  · split
    · next rows2 hm => exact mapE_length _ _ _ hm
    · exact rows_length_setColConst df colUsername (.str (""))
  · rfl

/-- `import_processed_data` either reports an error as 0 records or
reports exactly the input row count: no individual row is ever dropped. -/
theorem import_count_cases (now : String) (db : Db) (df0 : DataFrame) :
    (import_processed_data now db df0).1 = 0 ∨
    (import_processed_data now db df0).1 = df0.rows.length := by
  cases h2 : stage2Defaults now (stage1Rename df0) with
  | error e => left; simp [import_processed_data, h2]
  | ok df1 =>
    cases h3 : stage3Terms df1 with
    | error e => left; simp [import_processed_data, h2, h3]
    | ok df2 =>
      have hlen : (stage4Username df2).rows.length = df0.rows.length := by
        rw [rows_length_stage4, rows_length_stage3 _ _ h3,
          rows_length_foldE_default now requiredColumns _ _ h2, rows_length_stage1]
      cases h5 : selectTweets (stage4Username df2) with
      | error e => left; simp [import_processed_data, h2, h3, h5]
      | ok trows =>
        cases h6 : insertTweets db trows with
        | error e => left; simp [import_processed_data, h2, h3, h5, h6]
        | ok db1 =>
          cases h7 : selectSentiment (stage4Username df2) with
          | error e => left; simp [import_processed_data, h2, h3, h5, h6, h7]
          | ok srows =>
            cases h8 : insertSentiment db1 srows with
            | error e => left; simp [import_processed_data, h2, h3, h5, h6, h7, h8]
            | ok db2 =>
              cases h9 : userMetricsOf (stage4Username df2) with
              | error e => left; simp [import_processed_data, h2, h3, h5, h6, h7, h8, h9]
              | ok urows =>
                cases h10 : insertUserMetrics
                    (upsertTermsDb db2 (termCounts (stage4Username df2))) urows with
                | error e =>
                  left; simp [import_processed_data, h2, h3, h5, h6, h7, h8, h9, h10]
                | ok db4 =>
                  right
                  simp [import_processed_data, h2, h3, h5, h6, h7, h8, h9, h10, hlen]

/-! ## Column tracking through the reconciliation stages -/

/-- Membership after `addCol`. -/
theorem mem_addCol (cols : List String) (c x : String) :
    x ∈ addCol cols c → x ∈ cols ∨ x = c := by
  rw [addCol]
  split
  · exact Or.inl
  · intro h
    rcases List.mem_append.mp h with h | h
    · exact Or.inl h
    · right; simpa using h

/-- Renaming can only introduce the canonical identifier column. -/
theorem cols_stage1 (df : DataFrame) (x : String) :
    x ∈ (stage1Rename df).cols → x ∈ df.cols ∨ x = colTweetId := by
  rw [stage1Rename]
  split
  · intro h
    obtain ⟨c, hc, hcx⟩ := List.mem_map.mp h
    by_cases hid : c = colId
    · right; rw [← hcx, if_pos hid]
    · left; rw [← hcx, if_neg hid]; exact hc
  · exact Or.inl

/-- Index-based identifiers can only introduce the identifier column. -/
theorem cols_tweetIdFromIndex (df : DataFrame) (x : String) :
    x ∈ (tweetIdFromIndex df).cols → x ∈ df.cols ∨ x = colTweetId :=
  mem_addCol df.cols colTweetId x

/-- A defaulting step can only introduce the column it defaults. -/
theorem cols_defaultStep (now : String) (df df2 : DataFrame) (c x : String)
    (h : defaultStep now df c = .ok df2) : x ∈ df2.cols → x ∈ df.cols ∨ x = c := by
  rw [defaultStep] at h
  split_ifs at h <;> cases h <;>
    first
      | exact Or.inl
      | exact mem_addCol df.cols c x
      | (intro hx
         cases cols_tweetIdFromIndex df x hx with
         | inl hm => exact Or.inl hm
         | inr hm => right; simp_all)

/-- The defaulting loop can only introduce required columns. -/
theorem cols_foldE_default (now : String) (cs : List String) (df df2 : DataFrame) (x : String)
    (h : foldE (defaultStep now) df cs = .ok df2) :
    x ∈ df2.cols → x ∈ df.cols ∨ x ∈ cs := by
  induction cs generalizing df with
  | nil => cases h; exact Or.inl
  | cons c rest ih =>
    rw [foldE] at h
    cases hs : defaultStep now df c with
    | error e => rw [hs] at h; cases h
    | ok dfm =>
      rw [hs] at h
      intro hx
      rcases ih dfm h hx with hm | hm
      · rcases cols_defaultStep now df dfm c x hs hm with h1 | h1
        · exact Or.inl h1
        · right; rw [h1]; exact List.mem_cons_self c rest
      · right; exact List.mem_cons_of_mem c hm

/-- The term-list coercion leaves the column list unchanged. -/
theorem cols_stage3 (df df2 : DataFrame) (h : stage3Terms df = .ok df2) :
    df2.cols = df.cols := by
  rw [stage3Terms] at h
  split at h
  · cases hm : mapE (fun r => (convertTermCell (getCell r colTerms)).map
        (fun v => setCell r colTerms v)) df.rows with
    | error e => rw [hm] at h; cases h
    | ok rows2 => rw [hm] at h; cases h; rfl
  · cases h; rfl

/-- Without a `user` column the username-extraction stage is a no-op. -/
theorem stage4_skip (df : DataFrame) (h : colUser ∉ df.cols) :
    stage4Username df = df := by
  rw [stage4Username, if_neg]
  intro hc
  exact h hc.1

/-- The `tweets_df` selection raises when `username` is missing. -/
theorem selectTweets_error (df : DataFrame) (h : colUsername ∉ df.cols) :
    selectTweets df = .error () := by
  rw [selectTweets, if_neg]
  intro hall
  have := List.all_eq_true.mp hall colUsername (by decide)
  exact h (List.elem_iff.mp this)

/-! ## Term-count observers -/

/-- One upsert adds its count to exactly its own key. -/
theorem lookupCount_upsert (tbl : List TermRow) (s t : String) (k : Nat) :
    lookupCount (upsertTerm (s, k) tbl) t
      = lookupCount tbl t + (if s = t then k else 0) := by
  induction tbl with
  | nil =>
    by_cases h : s = t <;> simp [upsertTerm, lookupCount, h]
  | cons row rest ih =>
    rw [upsertTerm]
    by_cases hrow : row.term_text = s
    · rw [if_pos hrow]
      by_cases hst : s = t
      · subst hst
        simp [lookupCount, hrow]
      · have hrt : ¬ row.term_text = t := by rw [hrow]; exact hst
        simp [lookupCount, hrt, hst]
    · rw [if_neg hrow]
      by_cases hrt : row.term_text = t
      · have hst : ¬ s = t := by intro he; rw [he] at hrow; exact hrow hrt
        simp [lookupCount, hrt, hst]
      · simp [lookupCount, hrt, ih]

/-- Applying a batch's term counts adds exactly the counted amounts. -/
theorem lookupCount_applyTermCounts (counts : List (String × Nat)) (tbl : List TermRow)
    (t : String) :
    lookupCount (applyTermCounts tbl counts) t = lookupCount tbl t + countOf counts t := by
  induction counts generalizing tbl with
  | nil => simp [applyTermCounts, countOf]
  | cons p ps ih =>
    obtain ⟨s, k⟩ := p
    show lookupCount (applyTermCounts (upsertTerm (s, k) tbl) ps) t = _
    rw [ih, lookupCount_upsert]
    by_cases h : s = t <;> simp [countOf, List.filter_cons, h] <;> omega

/-! ## Group-key lemmas for the per-user aggregation -/

/-- Membership through sorted insertion. -/
theorem mem_insertSortedVal (v a : Value) (l : List Value) :
    a ∈ insertSortedVal v l ↔ a = v ∨ a ∈ l := by
  induction l with
  | nil => simp [insertSortedVal]
  | cons w ws ih =>
    rw [insertSortedVal]
    split
    · simp
    · simp only [List.mem_cons, ih]
      tauto

/-- Sorting preserves membership. -/
theorem mem_sortVals (a : Value) (l : List Value) : a ∈ sortVals l ↔ a ∈ l := by
  induction l with
  | nil => simp [sortVals]
  | cons v vs ih => simp [sortVals, mem_insertSortedVal, ih]

/-- Deduplication keeps exactly the elements not yet seen. -/
theorem mem_dedupVals (a : Value) (seen l : List Value) :
    a ∈ dedupVals seen l ↔ a ∈ l ∧ a ∉ seen := by
  induction l generalizing seen with
  | nil => simp [dedupVals]
  | cons v vs ih =>
    rw [dedupVals]
    split
    · next hc =>
      rw [ih]
      have hv : v ∈ seen := List.elem_iff.mp hc
      simp only [List.mem_cons]
      constructor
      · rintro ⟨h1, h2⟩; exact ⟨Or.inr h1, h2⟩
      · rintro ⟨h1 | h1, h2⟩
        · subst h1; exact absurd hv h2
        · exact ⟨h1, h2⟩
    · next hc =>
      have hv : v ∉ seen := fun hm => hc (List.elem_iff.mpr hm)
      simp only [List.mem_cons, ih, List.mem_cons]
      constructor
      · rintro (rfl | ⟨h1, h2⟩)
        · exact ⟨Or.inl rfl, hv⟩
        · refine ⟨Or.inr h1, fun hm => h2 (Or.inr hm)⟩
      · rintro ⟨h1 | h1, h2⟩
        · exact Or.inl h1
        · by_cases hav : a = v
          · exact Or.inl hav
          · exact Or.inr ⟨h1, fun hm => (by
              rcases hm with rfl | hm
              · exact hav rfl
              · exact h2 hm)⟩

/-- A value is a `groupby('username')` key exactly when it is a non-null
username of some row (the empty string included). -/
theorem mem_groupKeys (df : DataFrame) (v : Value) :
    v ∈ groupKeys df ↔ v ≠ .nan ∧ v ∈ df.rows.map (fun r => getCell r colUsername) := by
  rw [groupKeys, mem_sortVals, mem_dedupVals]
  simp only [List.mem_filter, List.not_mem_nil, not_false_iff, and_true]
  constructor
  · rintro ⟨h1, h2⟩
    exact ⟨by simpa using h2, h1⟩
  · rintro ⟨h1, h2⟩
    exact ⟨h2, by simpa using h1⟩

/-! ## Per-row scoring lemmas -/

/-- The TextBlob wrapper fails exactly when the underlying scorer does. -/
theorem isOkE_analyze_textblob (tb : List Char → Except Unit (ℚ × ℚ)) (c : List Char) :
    isOkE (analyze_sentiment_textblob tb c) = isOkE (tb c) := by
  rw [analyze_sentiment_textblob]
  cases tb c with
  | error e => rfl
  | ok p => obtain ⟨p1, p2⟩ := p; rfl

/-- The VADER wrapper fails exactly when the underlying scorer does. -/
theorem isOkE_analyze_vader (vd : List Char → Except Unit (ℚ × ℚ × ℚ × ℚ)) (c : List Char) :
    isOkE (analyze_sentiment_vader vd c) = isOkE (vd c) := by
  rw [analyze_sentiment_vader]
  cases vd c with
  | error e => rfl
  | ok p => obtain ⟨p1, p2, p3, p4⟩ := p; rfl

/-- `buildRows` produces one output row per input row. -/
theorem buildRows_length (ts cs : List (List Char)) (tbs : List (ℚ × ℚ × String))
    (vds : List (ℚ × ℚ × ℚ × ℚ × String))
    (h1 : cs.length = ts.length) (h2 : tbs.length = ts.length) (h3 : vds.length = ts.length) :
    (buildRows ts cs tbs vds).length = ts.length := by
  induction ts generalizing cs tbs vds with
  | nil =>
    cases cs with
    | nil => cases tbs with
      | nil => cases vds with
        | nil => rfl
        | cons _ _ => cases h3
      | cons _ _ => cases h2
    | cons _ _ => cases h1
  | cons t tts ih =>
    cases cs with
    | nil => cases h1
    | cons c ccs =>
      cases tbs with
      | nil => cases h2
      | cons tb tbs2 =>
        cases vds with
        | nil => cases h3
        | cons vdv vds2 =>
          obtain ⟨tp, tsub, tcat⟩ := tb
          obtain ⟨vc, vp, vn, vneu, vcat⟩ := vdv
          simp only [buildRows, List.length_cons]
          rw [ih ccs tbs2 vds2 (by simpa using h1) (by simpa using h2) (by simpa using h3)]

/-- Every row `buildRows` produces carries the derived term flag. -/
theorem buildRows_contains (ts cs : List (List Char)) (tbs : List (ℚ × ℚ × String))
    (vds : List (ℚ × ℚ × ℚ × ℚ × String)) (row : ScoredRow)
    (h : row ∈ buildRows ts cs tbs vds) :
    row.contains_mental_health_term = decide (row.mental_health_terms ≠ []) := by
  induction ts generalizing cs tbs vds with
  | nil => cases h
  | cons t tts ih =>
    cases cs with
    | nil => cases h
    | cons c ccs =>
      cases tbs with
      | nil => cases h
      | cons tb tbs2 =>
        cases vds with
        | nil => cases h
        | cons vdv vds2 =>
          obtain ⟨tp, tsub, tcat⟩ := tb
          obtain ⟨vc, vp, vn, vneu, vcat⟩ := vdv
          rw [buildRows] at h
          rcases List.mem_cons.mp h with rfl | hmem
          · show decide (0 < (extract_mental_health_terms c mentalHealthVocab).length)
                = decide (extract_mental_health_terms c mentalHealthVocab ≠ [])
            rw [decide_eq_decide]
            exact List.length_pos
          · exact ih ccs tbs2 vds2 hmem

/-! ## Claim C1 -/

/-- C1 (amended): reconciliation never excludes individual rows.  Every
batch either fails as a whole (reported as 0) or reports exactly the
input row count; rows lacking the primary identifier are retained, and
when the identifier column is absent entirely it is synthesized from the
row index (`0`, `1`, ...), so a batch with a missing identifier still
gets all of its rows imported. -/
theorem C1_reconcile_never_drops_rows :
    (∀ now db df0, (import_processed_data now db df0).1 = 0 ∨
        (import_processed_data now db df0).1 = df0.rows.length) ∧
    (import_processed_data now0 dbEmpty csvC1).1 = 2 ∧
    ((import_processed_data now0 dbEmpty csvC1b).2.tweets.map TweetRow.tweet_id)
      = [Value.str ("0"), Value.str ("1")] :=
  ⟨import_count_cases, by decide, by decide⟩

/-- C1 (counterexample): for the two-row batch `csvC1`, one of whose rows
lacks the primary identifier (M = 1 of N = 2), the claim demands N − M = 1
normalized rows; the code imports 2, and the identifier-less row is
visible in the posts table with a null key. -/
theorem C1_missing_id_row_retained :
    (import_processed_data now0 dbEmpty csvC1).1 = 2 ∧
    ¬ (import_processed_data now0 dbEmpty csvC1).1 = 2 - 1 ∧
    ((import_processed_data now0 dbEmpty csvC1).2.tweets.map TweetRow.tweet_id)
      = [Value.str ("1"), Value.nan] := by
  decide

/-! ## Claim C2 -/

/-- C2 (amended): the term-list coercion defaults to the empty encoded
list, without raising, for every cell that is not a string starting with
`[` — but a string that does start with `[` is passed to `eval`, and when
it is not a well-formed encoded list the evaluation raises and the whole
batch is aborted with 0 records imported (the defect is not confined to
the field). -/
theorem C2_term_field_coercion :
    (∀ s : String, ¬ s.toList.head? = some '[' →
        convertTermCell (.str s) = .ok (.jsonList [])) ∧
    (∀ q : ℚ, convertTermCell (.num q) = .ok (.jsonList [])) ∧
    convertTermCell .nan = .ok (.jsonList []) ∧
    (∀ s l, s.toList.head? = some '[' → pyEvalList s.toList = some l →
        convertTermCell (.str s) = .ok (.jsonList l)) ∧
    (∀ s, s.toList.head? = some '[' → pyEvalList s.toList = none →
        convertTermCell (.str s) = .error ()) ∧
    import_processed_data now0 dbEmpty csvC2 = (0, dbEmpty) := by
  refine ⟨?_, fun q => rfl, rfl, ?_, ?_, by decide⟩
  · intro s h
    rw [convertTermCell, if_neg h]
  · intro s l h1 h2
    rw [convertTermCell, if_pos h1, h2]
  · intro s h1 h2
    rw [convertTermCell, if_pos h1, h2]

/-- C2 (witness): the coercion at three concrete cells — a non-list
string defaults, a well-formed encoded list parses, a malformed one
raises. -/
theorem C2_term_field_coercion_witness :
    convertTermCell (.str ("garbage")) = .ok (.jsonList []) ∧
    convertTermCell (.str anxietyLit) = .ok (.jsonList [("anxiety")]) ∧
    convertTermCell (.str ("[broken")) = .error () :=
  ⟨C2_term_field_coercion.1 ("garbage") (by decide),
   C2_term_field_coercion.2.2.2.1 anxietyLit [("anxiety")] (by decide) (by decide),
   C2_term_field_coercion.2.2.2.2.1 ("[broken") (by decide) (by decide)⟩

/-- C2 (counterexample): the malformed encoded list `[broken` makes the
conversion raise, and the one-row batch containing it reports 0 records
instead of importing the row with an empty term list. -/
theorem C2_malformed_bracket_aborts_batch :
    isOkE (convertTermCell (.str ("[broken"))) = false ∧
    import_processed_data now0 dbEmpty csvC2 = (0, dbEmpty) ∧
    ¬ (import_processed_data now0 dbEmpty csvC2).1 = 1 := by
  decide

/-! ## Claim C3 -/

/-- C3 (amended): a failed batch is always reported as zero records
brought in, but the batch is not written as a unit: the function performs
no rollback, so sub-table writes that succeeded before the failure stay
visible.  For `csvC3` the user-metrics aggregation raises after the posts
and sentiment writes have committed, and both rows remain. -/
theorem C3_zero_reported_but_partial_writes :
    (∀ now db df0, (import_processed_data now db df0).1 = 0 ∨
        (import_processed_data now db df0).1 = df0.rows.length) ∧
    (import_processed_data now0 dbEmpty csvC3).1 = 0 ∧
    (import_processed_data now0 dbEmpty csvC3).2.tweets.length = 1 ∧
    (import_processed_data now0 dbEmpty csvC3).2.sentiment.length = 1 ∧
    dbEmpty.tweets.length = 0 :=
  ⟨import_count_cases, by decide, by decide, by decide, rfl⟩

/-- C3 (counterexample): for the batch `csvC3` the import reports an
error as 0 records, yet the database state is not unchanged — the posts
table has gained the batch's row. -/
theorem C3_partial_state_on_error :
    (import_processed_data now0 dbEmpty csvC3).1 = 0 ∧
    ¬ (import_processed_data now0 dbEmpty csvC3).2 = dbEmpty := by
  decide

/-! ## Claim C4 -/

/-- C4 (amended): the term-table update itself is insert-or-increment and
therefore additive — applying a batch's counts twice adds exactly twice
each term's contribution — but importing the same batch twice does not
double the persisted counts: the second import aborts on the posts
primary-key conflict before reaching the term update, reports 0, and
leaves every count at its single-import value. -/
theorem C4_upsert_additive_reimport_blocked :
    (∀ tbl counts t, lookupCount (applyTermCounts (applyTermCounts tbl counts) counts) t
        = lookupCount tbl t + 2 * countOf counts t) ∧
    (import_processed_data now0 dbEmpty csvC4).1 = 1 ∧
    lookupCount (import_processed_data now0 dbEmpty csvC4).2.terms ("anxiety") = 1 ∧
    (import_processed_data now0
        (import_processed_data now0 dbEmpty csvC4).2 csvC4).1 = 0 ∧
    lookupCount (import_processed_data now0
        (import_processed_data now0 dbEmpty csvC4).2 csvC4).2.terms ("anxiety") = 1 := by
  refine ⟨?_, by decide, by decide, by decide, by decide⟩
  intro tbl counts t
  rw [lookupCount_applyTermCounts, lookupCount_applyTermCounts]
  omega

/-- C4 (counterexample): importing `csvC4` twice leaves the persisted
count of `anxiety` at 1, not at twice the single-import contribution. -/
theorem C4_double_import_does_not_double :
    ¬ lookupCount (import_processed_data now0
          (import_processed_data now0 dbEmpty csvC4).2 csvC4).2.terms ("anxiety")
        = 2 * lookupCount (import_processed_data now0 dbEmpty csvC4).2.terms ("anxiety") := by
  decide

/-! ## Claim C5 -/

/-- C5: the derived categories are the fixed-threshold step functions:
TextBlob maps positive polarity to positive, negative to negative and
zero to neutral; VADER maps compound ≥ 0.05 to positive, ≤ −0.05 to
negative and the open dead zone (−0.05, 0.05) — e.g. 0.04 — to neutral,
with the threshold equal to 5/100. -/
theorem C5_threshold_categories :
    (∀ p : ℚ, (0 < p → textblobCategoryOf p = "positive") ∧
      (p < 0 → textblobCategoryOf p = "negative") ∧
      (p = 0 → textblobCategoryOf p = "neutral")) ∧
    (∀ c : ℚ, (vaderThreshold ≤ c → vaderCategoryOf c = "positive") ∧
      (c ≤ -vaderThreshold → vaderCategoryOf c = "negative") ∧
      (-vaderThreshold < c ∧ c < vaderThreshold → vaderCategoryOf c = "neutral")) ∧
    vaderThreshold = 5 / 100 ∧
    vaderCategoryOf (mkRat 4 100) = "neutral" ∧
    vaderCategoryOf (mkRat 5 100) = "positive" ∧
    vaderCategoryOf (-(mkRat 5 100)) = "negative" := by
  refine ⟨fun p => ⟨?_, ?_, ?_⟩, fun c => ⟨?_, ?_, ?_⟩, ?_, by decide, by decide, by decide⟩
  · intro h
    rw [textblobCategoryOf, if_pos h]
  · intro h
    rw [textblobCategoryOf, if_neg (by linarith), if_pos h]
  · intro h
    subst h
    rw [textblobCategoryOf, if_neg (by linarith), if_neg (by linarith)]
  · intro h
    rw [vaderCategoryOf, if_pos h]
  · intro h
    have hpos : (0 : ℚ) < vaderThreshold := by decide
    rw [vaderCategoryOf, if_neg (by linarith), if_pos h]
  · rintro ⟨h1, h2⟩
    rw [vaderCategoryOf, if_neg (by linarith), if_neg (by linarith)]
  · rw [vaderThreshold, Rat.mkRat_eq_div]
    norm_num

/-- C5 (witness): the threshold behaviour at concrete scores, including
the dead-zone example 0.04 ↦ neutral. -/
theorem C5_threshold_categories_witness :
    textblobCategoryOf 1 = "positive" ∧ textblobCategoryOf (-1) = "negative" ∧
    textblobCategoryOf 0 = "neutral" ∧ vaderCategoryOf (mkRat 4 100) = "neutral" ∧
    vaderCategoryOf (mkRat 6 100) = "positive" :=
  ⟨(C5_threshold_categories.1 1).1 (by decide),
   (C5_threshold_categories.1 (-1)).2.1 (by decide),
   (C5_threshold_categories.1 0).2.2 rfl,
   (C5_threshold_categories.2.1 (mkRat 4 100)).2.2 ⟨by decide, by decide⟩,
   (C5_threshold_categories.2.1 (mkRat 6 100)).1 (by decide)⟩

/-! ## Claim C6 -/

/-- C6 (amended): a raise of either underlying scoring function on any
row aborts the processing of the entire file (`process_tweet_file`
returns `None` and no rows are emitted) — failure is at file scope, not
row scope; when no row raises, every row of a non-empty file is emitted,
and no fabricated score is ever substituted. -/
theorem C6_scoring_failure_aborts_file :
    (∀ tb vd tweets, (∃ t ∈ tweets, isOkE (tb (clean_tweet t)) = false ∨
        isOkE (vd (clean_tweet t)) = false) →
      process_tweet_file tb vd tweets = none) ∧
    (∀ tb vd tweets, tweets ≠ [] →
      (∀ t ∈ tweets, isOkE (tb (clean_tweet t)) = true ∧ isOkE (vd (clean_tweet t)) = true) →
      ∃ out, process_tweet_file tb vd tweets = some out ∧ out.length = tweets.length) := by
  constructor
  · rintro tb vd tweets ⟨t, ht, hfail⟩
    have hne : tweets.isEmpty = false := by
      cases tweets
      · cases ht
      · rfl
    have hct : clean_tweet t ∈ tweets.map clean_tweet := List.mem_map_of_mem clean_tweet ht
    rcases hfail with hf | hf
    · have herr : mapE (analyze_sentiment_textblob tb) (tweets.map clean_tweet) = .error () :=
        mapE_error_of_mem _ _ _ hct (by rw [isOkE_analyze_textblob]; exact hf)
      simp [process_tweet_file, hne, herr]
    · have herr : mapE (analyze_sentiment_vader vd) (tweets.map clean_tweet) = .error () :=
        mapE_error_of_mem _ _ _ hct (by rw [isOkE_analyze_vader]; exact hf)
      cases htb : mapE (analyze_sentiment_textblob tb) (tweets.map clean_tweet) with
      | error e => simp [process_tweet_file, hne, htb]
      | ok tbs => simp [process_tweet_file, hne, htb, herr]
  · intro tb vd tweets hne hall
    have hne2 : tweets.isEmpty = false := by
      cases tweets
      · exact absurd rfl hne
      · rfl
    obtain ⟨tbs, htbs⟩ := mapE_ok_of_all (analyze_sentiment_textblob tb) (tweets.map clean_tweet)
      (by
        intro c hc
        obtain ⟨t, ht, rfl⟩ := List.mem_map.mp hc
        rw [isOkE_analyze_textblob]
        exact (hall t ht).1)
    obtain ⟨vds, hvds⟩ := mapE_ok_of_all (analyze_sentiment_vader vd) (tweets.map clean_tweet)
      (by
        intro c hc
        obtain ⟨t, ht, rfl⟩ := List.mem_map.mp hc
        rw [isOkE_analyze_vader]
        exact (hall t ht).2)
    refine ⟨buildRows tweets (tweets.map clean_tweet) tbs vds, ?_, ?_⟩
    · simp [process_tweet_file, hne2, htbs, hvds]
    · exact buildRows_length tweets (tweets.map clean_tweet) tbs vds (by simp)
        (by rw [mapE_length _ _ _ htbs]; simp)
        (by rw [mapE_length _ _ _ hvds]; simp)

/-- C6 (witness): a one-row file under never-failing scorers is fully
processed. -/
theorem C6_scoring_failure_aborts_file_witness :
    ∃ out, process_tweet_file tbZero vdZero [("hello").toList] = some out ∧ out.length = 1 :=
  C6_scoring_failure_aborts_file.2 tbZero vdZero [("hello").toList] (by decide) (by decide)

/-- C6 (counterexample): a two-row file in which the scorer raises only on
the second row yields no output at all — the first row is not processed,
contradicting the claim that only the failing row's sentiment fields are
omitted while the remaining rows continue. -/
theorem C6_single_row_failure_kills_batch :
    process_tweet_file tbFailsOnBad vdZero [("good").toList, ("bad").toList] = none ∧
    (process_tweet_file tbFailsOnBad vdZero [("good").toList, ("bad").toList]).isSome
      = false := by
  decide

/-! ## Claim C7 -/

/-- C7: the term tagger returns exactly the vocabulary terms whose
lowercase form is a substring of the lowercase text, in vocabulary order
(it is the order-preserving filter of the vocabulary), it returns the
empty list when no term is contained, and in the processed output the
`contains_mental_health_term` flag of every row equals the non-emptiness
of its tag list. -/
theorem C7_term_tagger_containment :
    (∀ text vocab, extract_mental_health_terms text vocab
        = vocab.filter (fun t => isSubstrOf (lowerList t) (lowerList text))) ∧
    (∀ text vocab t, t ∈ extract_mental_health_terms text vocab ↔
        t ∈ vocab ∧ lowerList t <:+: lowerList text) ∧
    (∀ text vocab, (∀ t ∈ vocab, ¬ lowerList t <:+: lowerList text) →
        extract_mental_health_terms text vocab = []) ∧
    (∀ tb vd tweets out, process_tweet_file tb vd tweets = some out →
        ∀ row ∈ out, row.contains_mental_health_term
          = decide (row.mental_health_terms ≠ [])) := by
  refine ⟨extract_eq_filter, ?_, ?_, ?_⟩
  · intro text vocab t
    rw [extract_eq_filter, List.mem_filter, isSubstrOf_iff_infix]
  · intro text vocab h
    rw [extract_eq_filter]
    apply List.filter_eq_nil_iff.mpr
    intro t ht
    rw [Bool.not_eq_true, ← Bool.not_eq_true, isSubstrOf_iff_infix]
    exact h t ht
  · intro tb vd tweets out hout row hrow
    by_cases hne : tweets.isEmpty
    · simp [process_tweet_file, hne] at hout
    · cases htb : mapE (analyze_sentiment_textblob tb) (tweets.map clean_tweet) with
      | error e => simp [process_tweet_file, hne, htb] at hout
      | ok tbs =>
        cases hvd : mapE (analyze_sentiment_vader vd) (tweets.map clean_tweet) with
        | error e => simp [process_tweet_file, hne, htb, hvd] at hout
        | ok vds =>
          simp [process_tweet_file, hne, htb, hvd] at hout
          subst hout
          exact buildRows_contains tweets (tweets.map clean_tweet) tbs vds row hrow

/-- C7 (witness): the flag equality at a concrete processed row, and the
empty tag list for a text containing no vocabulary term. -/
theorem C7_term_tagger_containment_witness :
    rowHello.contains_mental_health_term = decide (rowHello.mental_health_terms ≠ []) ∧
    extract_mental_health_terms (("nothing to see").toList) mentalHealthVocab = [] :=
  ⟨C7_term_tagger_containment.2.2.2 tbZero vdZero [("hello").toList] [rowHello]
      (by decide) rowHello (by decide),
   C7_term_tagger_containment.2.2.1 (("nothing to see").toList) mentalHealthVocab (by decide)⟩

/-! ## Claim C8 -/

/-- C8 (amended): `clean_tweet` is not idempotent in general — removing a
`#` (or punctuation) can splice together a new URL-like token that only a
second pass strips — but on the specification's example input
`check this http://x.co @bob #sad!!` the output is `check this sad` and a
second application leaves it unchanged. -/
theorem C8_clean_tweet_example_idempotent :
    clean_tweet (("check this http://x.co @bob #sad!!").toList) = ("check this sad").toList ∧
    clean_tweet (clean_tweet (("check this http://x.co @bob #sad!!").toList))
      = clean_tweet (("check this http://x.co @bob #sad!!").toList) ∧
    clean_tweet (("ht#tpx").toList) = ("httpx").toList ∧
    clean_tweet (("httpx").toList) = [] := by
  decide

/-- C8 (counterexample): idempotence fails at the input `ht#tpx`: one
pass yields `httpx` (the `#` removal creates a URL-like token), and a
second pass deletes it entirely. -/
theorem C8_clean_tweet_not_idempotent :
    ¬ clean_tweet (clean_tweet (("ht#tpx").toList)) = clean_tweet (("ht#tpx").toList) := by
  decide

/-! ## Claim C9 -/

/-- C9 (amended): per-user aggregation drops rows whose author is missing
(null), not rows whose author is the empty string: the group keys are
exactly the non-null usernames, so an empty-string author produces a
user-metrics group, while both kinds of row still contribute to
term-occurrence aggregation.  For `csvC9` (one empty-string author, one
null author) the import emits exactly one user-metrics row, keyed by the
empty string, and counts the terms of both rows. -/
theorem C9_groupby_null_vs_empty :
    (∀ df v, v ∈ groupKeys df ↔
        v ≠ .nan ∧ v ∈ df.rows.map (fun r => getCell r colUsername)) ∧
    (import_processed_data now0 dbEmpty csvC9).1 = 2 ∧
    ((import_processed_data now0 dbEmpty csvC9).2.user_metrics.map UserRow.username)
      = [Value.str ("")] ∧
    (import_processed_data now0 dbEmpty csvC9).2.terms
      = [{ term_text := "stress", category := "general", occurrence_count := 2 }] :=
  ⟨mem_groupKeys, by decide, by decide, by decide⟩

/-- C9 (witness): for the concrete frame `csvC9`, the empty-string author
is a group key and the null author is not. -/
theorem C9_groupby_null_vs_empty_witness :
    Value.str ("") ∈ groupKeys csvC9 ∧ Value.nan ∉ groupKeys csvC9 :=
  ⟨(C9_groupby_null_vs_empty.1 csvC9 (Value.str (""))).mpr (by decide),
   fun h => ((C9_groupby_null_vs_empty.1 csvC9 Value.nan).mp h).1 rfl⟩

/-- C9 (counterexample): the claim says no user-metrics group is produced
for the empty author; importing `csvC9` produces exactly one user-metrics
row and its key is the empty string. -/
theorem C9_empty_author_group_produced :
    ((import_processed_data now0 dbEmpty csvC9).2.user_metrics.map UserRow.username)
      = [Value.str ("")] ∧
    ¬ (import_processed_data now0 dbEmpty csvC9).2.user_metrics = [] := by
  decide

/-! ## Claim C10 -/

/-- C10: when the input frame has neither a `user` nor a `username`
column, the import of that batch fails as a whole and returns 0 records
with the database unchanged, however well-formed its rows:
`username` is not among the defaulted columns, and the `tweets_df`
selection raises before any write. -/
theorem C10_missing_username_aborts_import (now : String) (db : Db) (df0 : DataFrame)
    (hu : colUser ∉ df0.cols) (hun : colUsername ∉ df0.cols) :
    import_processed_data now db df0 = (0, db) := by
  cases h2 : stage2Defaults now (stage1Rename df0) with
  | error e => simp [import_processed_data, h2]
  | ok df1 =>
    have hun1 : colUsername ∉ df1.cols := by
      intro hx
      rcases cols_foldE_default now requiredColumns _ _ _ h2 hx with hm | hm
      · rcases cols_stage1 df0 _ hm with h1 | h1
        · exact hun h1
        · exact absurd h1 (by decide)
      · exact absurd hm (by decide)
    have hu1 : colUser ∉ df1.cols := by
      intro hx
      rcases cols_foldE_default now requiredColumns _ _ _ h2 hx with hm | hm
      · rcases cols_stage1 df0 _ hm with h1 | h1
        · exact hu h1
        · exact absurd h1 (by decide)
      · exact absurd hm (by decide)
    cases h3 : stage3Terms df1 with
    | error e => simp [import_processed_data, h2, h3]
    | ok df2 =>
      have hcols := cols_stage3 df1 df2 h3
      have h4 : stage4Username df2 = df2 := stage4_skip df2 (hcols ▸ hu1)
      have h5 : selectTweets (stage4Username df2) = .error () := by
        rw [h4]; exact selectTweets_error df2 (hcols ▸ hun1)
      simp [import_processed_data, h2, h3, h5]

/-- C10 (witness): a well-formed one-row batch without `user` or
`username` columns imports 0 records and leaves the store untouched. -/
theorem C10_missing_username_aborts_import_witness :
    import_processed_data now0 dbEmpty csvC10 = (0, dbEmpty) :=
  C10_missing_username_aborts_import now0 dbEmpty csvC10 (by decide) (by decide)
